import Mathlib

/-!
Verification of the Legal Argument Evaluation Pipeline (law-base).

This file gives a shallow embedding, in Lean 4, of the decision logic of the
repository's core modules and proves or refutes the specification claims
about them:

* src/backend/weighting/point_weighting.py   (PointWeighting)
* src/backend/analysis/case_analysis.py      (CaseAnalysis, relevance part)
* src/backend/strategy/suggestion_engine.py  (StrategySuggestionEngine)
* src/backend/dual_perspective.py            (DualPerspectiveAnalysis)
* src/backend/weakness/analysis.py           (WeaknessAnalysis)
* src/utils/validators.py                    (DataValidator)

Conventions of the embedding:

* Python floats are modelled as exact rationals; all the constants in the
  source (0.98, 0.5, 0.1, ...) are exactly representable and no claim here
  depends on rounding.
* A Python dict-shaped record is a structure whose possibly-absent keys are
  Option fields.
* Code that can raise is modelled with Option or Except: a result of none
  (or of Except.error) is the computation raising an uncaught exception.
* External capabilities (the spaCy sentence segmenter, the spaCy semantic
  similarity) are parameters of the embedded functions; a similarity value
  of none models the external call raising.
* datetime.strptime with format %Y-%m-%d is modelled by parseYMD below, and
  datetime.now().year is an explicit nowYear parameter.
-/

/-! ### Generic list machinery

Python's sorted(..., key=k, reverse=True) is a stable descending sort by the
key.  We model it by a stable insertion sort: an element is inserted behind
every earlier element whose key is not smaller, which is exactly the
stability contract of sorted with reverse=True. -/

def insertDesc {α β : Type} [LinearOrder β] (key : α → β) (x : α) : List α → List α
  | [] => [x]
  | y :: ys => if key x < key y then y :: insertDesc key x ys else x :: y :: ys

def sortDesc {α β : Type} [LinearOrder β] (key : α → β) (l : List α) : List α :=
  l.foldr (insertDesc key) []

theorem mem_insertDesc {α β : Type} [LinearOrder β] (key : α → β) (x a : α) (l : List α) :
    a ∈ insertDesc key x l ↔ a = x ∨ a ∈ l := by
  induction l with
  | nil => simp [insertDesc]
  | cons y ys ih =>
    simp only [insertDesc]
    split
    · simp only [List.mem_cons, ih]
      tauto
    · simp [List.mem_cons]

theorem pairwise_insertDesc {α β : Type} [LinearOrder β] (key : α → β) (x : α) (l : List α)
    (h : l.Pairwise (fun a b => key b ≤ key a)) :
    (insertDesc key x l).Pairwise (fun a b => key b ≤ key a) := by
  induction l with
  | nil => simp [insertDesc]
  | cons y ys ih =>
    rcases h with _ | ⟨hy, hys⟩
    simp only [insertDesc]
    split
    · refine List.Pairwise.cons ?_ (ih hys)
      intro z hz
      rcases (mem_insertDesc key x z ys).1 hz with rfl | hz2
      · exact le_of_lt (by assumption)
      · exact hy z hz2
    · refine List.Pairwise.cons ?_ (List.Pairwise.cons hy hys)
      intro z hz
      rcases List.mem_cons.1 hz with rfl | hz2
      · exact le_of_not_lt (by assumption)
      · exact le_trans (hy z hz2) (le_of_not_lt (by assumption))

theorem pairwise_sortDesc {α β : Type} [LinearOrder β] (key : α → β) (l : List α) :
    (sortDesc key l).Pairwise (fun a b => key b ≤ key a) := by
  induction l with
  | nil => exact List.Pairwise.nil
  | cons y ys ih => exact pairwise_insertDesc key y _ ih

theorem mem_sortDesc {α β : Type} [LinearOrder β] (key : α → β) (a : α) (l : List α) :
    a ∈ sortDesc key l ↔ a ∈ l := by
  induction l with
  | nil => simp [sortDesc]
  | cons y ys ih =>
    show a ∈ insertDesc key y (sortDesc key ys) ↔ _
    rw [mem_insertDesc]
    simp [ih]

/-! ### Date parsing

parseYMD models Python's datetime.strptime(s, "%Y-%m-%d").year: the string
must consist of three dash-separated all-digit groups (1-4 digits of year,
1-2 of month and day, as the strptime directives accept), the month must be
in 1..12 and the day must exist in that month (with the Gregorian leap-year
rule, as datetime validates); any other string raises ValueError, modelled
by none. -/

def splitDash : List Char → List (List Char)
  | [] => [[]]
  | c :: rest =>
    if c = '-' then [] :: splitDash rest
    else
      match splitDash rest with
      | g :: gs => (c :: g) :: gs
      | [] => [[c]]

def digitsToNat (l : List Char) : ℕ :=
  l.foldl (fun n c => 10 * n + (c.toNat - 48)) 0

def isLeapYear (y : ℕ) : Bool :=
  (y % 4 == 0 && y % 100 != 0) || (y % 400 == 0)

def daysInMonth (y m : ℕ) : ℕ :=
  if m = 2 then (if isLeapYear y then 29 else 28)
  else if m = 4 ∨ m = 6 ∨ m = 9 ∨ m = 11 then 30
  else 31

def parseYMD (s : String) : Option ℤ :=
  match splitDash s.data with
  | [ys, ms, ds] =>
    if (ys.all Char.isDigit ∧ ms.all Char.isDigit ∧ ds.all Char.isDigit)
        ∧ (1 ≤ ys.length ∧ ys.length ≤ 4)
        ∧ (1 ≤ ms.length ∧ ms.length ≤ 2)
        ∧ (1 ≤ ds.length ∧ ds.length ≤ 2) then
      let y := digitsToNat ys
      let m := digitsToNat ms
      let d := digitsToNat ds
      if 1 ≤ y ∧ (1 ≤ m ∧ m ≤ 12) ∧ (1 ≤ d ∧ d ≤ daysInMonth y m) then
        some (y : ℤ)
      else none
    else none
  | _ => none

/-! ### PointWeighting (src/backend/weighting/point_weighting.py)

A case record as consumed by PointWeighting.weight_points.  The Python dict
is untyped; numeric fields are modelled as rationals (a Python int or float)
and may be absent. -/

structure PWCase where
  keywords : Option (List String)
  context_similarity : Option ℚ
  citation_count : Option ℚ
  court_type : Option String
  precedent_setting : Bool
  overturned_previous : Bool
  widely_cited : Bool
  current_relevance : Bool
  date : Option String

/-- The fixed court_hierarchy_weights table from PointWeighting.__init__. -/
def court_hierarchy_weights (court : String) : Option ℚ :=
  if court = "Supreme Court" then some 1.0
  else if court = "Circuit Court" then some 0.8
  else if court = "District Court" then some 0.6
  else if court = "State Supreme Court" then some 0.7
  else if court = "State Appellate Court" then some 0.5
  else if court = "State Trial Court" then some 0.4
  else none

/-- PointWeighting._calculate_relevance_weight: 0.1 per keyword plus half the
context similarity, capped at 1. -/
def calculate_relevance_weight (c : PWCase) : ℚ :=
  let kw : ℚ := match c.keywords with
    | some ks => (ks.length : ℚ) * 0.1
    | none => 0
  let cs : ℚ := match c.context_similarity with
    | some q => q * 0.5
    | none => 0
  min (kw + cs) 1

/-- PointWeighting._calculate_citation_weight: citation_count / 50 capped at 1;
an absent count defaults to 0. -/
def calculate_citation_weight (c : PWCase) : ℚ :=
  min ((c.citation_count.getD 0) / 50) 1

/-- PointWeighting._calculate_hierarchy_weight: table lookup with default court
type "District Court" and default weight 0.4 for unknown courts. -/
def calculate_hierarchy_weight (c : PWCase) : ℚ :=
  (court_hierarchy_weights (c.court_type.getD ("District Court"))).getD 0.4

/-- PointWeighting._calculate_outcome_impact: fixed increments for each truthy
flag. -/
def calculate_outcome_impact (c : PWCase) : ℚ :=
  (if c.precedent_setting then (0.3 : ℚ) else 0)
    + (if c.overturned_previous then 0.2 else 0)
    + (if c.widely_cited then 0.2 else 0)
    + (if c.current_relevance then 0.3 else 0)

/-- PointWeighting._calculate_temporal_weight: 0.5 when the date key is absent;
otherwise strptime the date (an unparseable string raises ValueError, i.e.
none) and decay 0.98 per year of age. -/
def calculate_temporal_weight (nowYear : ℤ) (c : PWCase) : Option ℚ :=
  match c.date with
  | none => some 0.5
  | some d =>
    match parseYMD d with
    | none => none
    | some y => some ((0.98 : ℚ) ^ (nowYear - y))

/-- The weights dict returned by PointWeighting.weight_points. -/
structure WeightVector where
  relevance : ℚ
  citation_frequency : ℚ
  court_hierarchy : ℚ
  case_outcome_impact : ℚ
  temporal_relevance : ℚ

def WeightVector.sum (v : WeightVector) : ℚ :=
  v.relevance + v.citation_frequency + v.court_hierarchy
    + v.case_outcome_impact + v.temporal_relevance

/-- The local total_weight of weight_points: the sum of the five raw factor
scores, given the already-computed temporal factor t. -/
def raw_sum (c : PWCase) (t : ℚ) : ℚ :=
  calculate_relevance_weight c + calculate_citation_weight c
    + calculate_hierarchy_weight c + calculate_outcome_impact c + t

/-- PointWeighting.weight_points: compute the five raw factor scores and divide
each by their total.  The Python code normalizes unconditionally; when the
total is 0 the division raises ZeroDivisionError (modelled by none), and when
the temporal factor raises on a malformed date that exception propagates
(also none). -/
def weight_points (nowYear : ℤ) (c : PWCase) : Option WeightVector :=
  match calculate_temporal_weight nowYear c with
  | none => none
  | some t =>
    if raw_sum c t = 0 then none
    else some ⟨calculate_relevance_weight c / raw_sum c t,
      calculate_citation_weight c / raw_sum c t,
      calculate_hierarchy_weight c / raw_sum c t,
      calculate_outcome_impact c / raw_sum c t,
      t / raw_sum c t⟩

/-- The sum of the five raw (pre-normalization) factor scores of
weight_points, none when the temporal factor raises. -/
def raw_total (nowYear : ℤ) (c : PWCase) : Option ℚ :=
  (calculate_temporal_weight nowYear c).map (raw_sum c)

/-! ### Facts about the raw factors -/

theorem hierarchy_ge (c : PWCase) : 0.4 ≤ calculate_hierarchy_weight c := by
  unfold calculate_hierarchy_weight court_hierarchy_weights
  split_ifs <;> norm_num

theorem relevance_nonneg (c : PWCase) (hcs : 0 ≤ c.context_similarity.getD 0) :
    0 ≤ calculate_relevance_weight c := by
  unfold calculate_relevance_weight
  refine le_min (add_nonneg ?_ ?_) (by norm_num)
  · cases c.keywords <;> simp <;> positivity
  · cases hv : c.context_similarity with
    | none => norm_num
    | some q =>
      rw [hv] at hcs
      simp only [Option.getD_some] at hcs
      simp only
      nlinarith

theorem citation_nonneg (c : PWCase) (hcc : 0 ≤ c.citation_count.getD 0) :
    0 ≤ calculate_citation_weight c := by
  unfold calculate_citation_weight
  exact le_min (by positivity) (by norm_num)

theorem outcome_nonneg (c : PWCase) : 0 ≤ calculate_outcome_impact c := by
  unfold calculate_outcome_impact
  split_ifs <;> norm_num

theorem temporal_pos (ny : ℤ) (c : PWCase) (t : ℚ)
    (h : calculate_temporal_weight ny c = some t) : 0 < t := by
  unfold calculate_temporal_weight at h
  cases hd : c.date with
  | none =>
    rw [hd] at h
    simp only [Option.some.injEq] at h
    subst h
    norm_num
  | some d =>
    rw [hd] at h
    cases hp : parseYMD d with
    | none => simp only [hp] at h; cases h
    | some y =>
      simp only [hp, Option.some.injEq] at h
      subst h
      positivity

/-! ### Claims C4, C5, C6 about PointWeighting -/

/-- A case on which the five raw factor scores of weight_points sum to 0:
a negative citation_count of -45 gives citation weight -0.9, the explicit
court tier "State Trial Court" gives hierarchy weight 0.4, the absent date
gives temporal weight 0.5, and the other two factors are 0. -/
def c4case : PWCase :=
  { keywords := none, context_similarity := none, citation_count := some (-45),
    court_type := some ("State Trial Court"), precedent_setting := false,
    overturned_previous := false, widely_cited := false, current_relevance := false,
    date := none }

/-- The equal-weights vector the claim says weight_points returns on a
zero-sum case. -/
def equal_weights : WeightVector := ⟨0.2, 0.2, 0.2, 0.2, 0.2⟩

theorem c4case_raw_total : raw_total 2025 c4case = some 0 := by
  norm_num +decide [raw_total, raw_sum, calculate_temporal_weight,
    calculate_relevance_weight, calculate_citation_weight,
    calculate_hierarchy_weight, court_hierarchy_weights,
    calculate_outcome_impact, c4case, min_def]

theorem c4case_weight_points : weight_points 2025 c4case = none := by
  norm_num +decide [weight_points, raw_sum, calculate_temporal_weight,
    calculate_relevance_weight, calculate_citation_weight,
    calculate_hierarchy_weight, court_hierarchy_weights,
    calculate_outcome_impact, c4case, min_def]

/-- Claim C4, counterexample: on the concrete case c4case the five raw factor
scores sum to 0, yet weight_points does not return the equal 0.2 weight
vector; the unguarded normalization raises ZeroDivisionError (modelled by
none).  This refutes the claim that a zero factor sum yields equal weights of
0.2. -/
theorem c4_counterexample :
    raw_total 2025 c4case = some 0
      ∧ weight_points 2025 c4case = none
      ∧ weight_points 2025 c4case ≠ some equal_weights := by
  refine ⟨c4case_raw_total, c4case_weight_points, ?_⟩
  rw [c4case_weight_points]
  simp

/-- Claim C4, amended: for every case whose five raw factor scores sum to 0,
weight_points raises ZeroDivisionError (modelled by none) instead of
returning equal weights; the code has no zero-sum guard. -/
theorem c4_amended (ny : ℤ) (c : PWCase) (h : raw_total ny c = some 0) :
    weight_points ny c = none := by
  unfold raw_total at h
  unfold weight_points
  cases hT : calculate_temporal_weight ny c with
  | none => rfl
  | some t =>
    rw [hT] at h
    simp only [Option.map_some', Option.some.injEq] at h
    simp only [h, if_pos]

/-- Witness for c4_amended at the concrete zero-sum case c4case. -/
theorem c4_amended_witness :
    raw_total 2025 c4case = some 0 ∧ weight_points 2025 c4case = none :=
  ⟨c4case_raw_total, c4_amended 2025 c4case c4case_raw_total⟩

/-- A case whose date field is present but not parseable as %Y-%m-%d. -/
def c5case : PWCase :=
  { keywords := none, context_similarity := none, citation_count := none,
    court_type := none, precedent_setting := false, overturned_previous := false,
    widely_cited := false, current_relevance := false,
    date := some ("not-a-date") }

/-- Claim C5, counterexample: on a case whose date is the malformed string
"not-a-date", the temporal factor does not degrade to the absent-date default
0.5: strptime raises ValueError, which propagates out of weight_points
(modelled by none in both places).  This refutes the claim that a malformed
date degrades to 0.5 without raising. -/
theorem c5_counterexample :
    parseYMD ("not-a-date") = none
      ∧ calculate_temporal_weight 2025 c5case = none
      ∧ calculate_temporal_weight 2025 c5case ≠ some 0.5
      ∧ weight_points 2025 c5case = none := by
  refine ⟨rfl, rfl, ?_, rfl⟩
  intro h
  cases h

/-- Claim C5, amended: a present but unparseable date string makes
_calculate_temporal_weight raise ValueError, and the exception propagates out
of weight_points (both modelled by none); only an absent date field yields
the 0.5 default. -/
theorem c5_amended (ny : ℤ) (c : PWCase) (s : String) :
    (c.date = some s → parseYMD s = none →
      calculate_temporal_weight ny c = none ∧ weight_points ny c = none)
    ∧ (c.date = none → calculate_temporal_weight ny c = some 0.5) := by
  constructor
  · intro hd hp
    have hT : calculate_temporal_weight ny c = none := by
      unfold calculate_temporal_weight
      rw [hd]
      dsimp only
      rw [hp]
    refine ⟨hT, ?_⟩
    unfold weight_points
    rw [hT]
  · intro hd
    unfold calculate_temporal_weight
    rw [hd]

/-- Witness for c5_amended: the malformed-date case c5case and the
absent-date case c4case. -/
theorem c5_amended_witness :
    (calculate_temporal_weight 2025 c5case = none ∧ weight_points 2025 c5case = none)
      ∧ calculate_temporal_weight 2025 c4case = some 0.5 :=
  ⟨(c5_amended 2025 c5case ("not-a-date")).1 rfl rfl,
   (c5_amended 2025 c4case ("")).2 rfl⟩

/-- A case with a negative citation_count on which weight_points returns a
vector with a negative factor: raw factors are 0, -1, 0.4, 0, 0.5 with total
-0.1, so the normalized court_hierarchy factor is 0.4 / -0.1 = -4. -/
def c6case : PWCase :=
  { keywords := none, context_similarity := none, citation_count := some (-50),
    court_type := some ("State Trial Court"), precedent_setting := false,
    overturned_previous := false, widely_cited := false, current_relevance := false,
    date := none }

/-- Claim C6, counterexample: weight_points returns, on the concrete case
c6case, a WeightVector whose court_hierarchy factor is -4 < 0, refuting the
claim that no returned factor is ever negative. -/
theorem c6_counterexample :
    weight_points 2025 c6case = some ⟨0, 10, -4, 0, -5⟩
      ∧ (⟨0, 10, -4, 0, -5⟩ : WeightVector).court_hierarchy < 0 := by
  constructor
  · norm_num +decide [weight_points, raw_sum, calculate_temporal_weight,
      calculate_relevance_weight, calculate_citation_weight,
      calculate_hierarchy_weight, court_hierarchy_weights,
      calculate_outcome_impact, c6case, min_def]
  · norm_num

/-- Claim C6, amended: every WeightVector returned by weight_points has values
summing exactly to 1; and provided the case's citation_count and
context_similarity (when present) are nonnegative — as every repo-produced
case satisfies — every factor is also nonnegative.  (A negative
citation_count or context_similarity can produce a negative factor, as
c6_counterexample shows.) -/
theorem c6_amended (ny : ℤ) (c : PWCase) (v : WeightVector)
    (h : weight_points ny c = some v) :
    WeightVector.sum v = 1
      ∧ (0 ≤ c.citation_count.getD 0 → 0 ≤ c.context_similarity.getD 0 →
          0 ≤ v.relevance ∧ 0 ≤ v.citation_frequency ∧ 0 ≤ v.court_hierarchy
            ∧ 0 ≤ v.case_outcome_impact ∧ 0 ≤ v.temporal_relevance) := by
  unfold weight_points at h
  cases hT : calculate_temporal_weight ny c with
  | none => rw [hT] at h; cases h
  | some t =>
    rw [hT] at h
    dsimp only at h
    by_cases h0 : raw_sum c t = 0
    · rw [if_pos h0] at h; cases h
    · rw [if_neg h0] at h
      simp only [Option.some.injEq] at h
      subst h
      constructor
      · show _ / _ + _ / _ + _ / _ + _ / _ + _ / _ = 1
        rw [div_add_div_same, div_add_div_same, div_add_div_same, div_add_div_same]
        have hS : calculate_relevance_weight c + calculate_citation_weight c
            + calculate_hierarchy_weight c + calculate_outcome_impact c + t
              = raw_sum c t := rfl
        rw [hS]
        exact div_self h0
      · intro hcc hcs
        have h1 := relevance_nonneg c hcs
        have h2 := citation_nonneg c hcc
        have h3 := hierarchy_ge c
        have h4 := outcome_nonneg c
        have h5 := temporal_pos ny c t hT
        have hS : 0 < raw_sum c t := by unfold raw_sum; linarith
        exact ⟨div_nonneg h1 hS.le, div_nonneg h2 hS.le,
          div_nonneg (by linarith) hS.le, div_nonneg h4 hS.le,
          div_nonneg h5.le hS.le⟩

/-- A benign case for the c6_amended witness: citation_count 0, Supreme Court,
no date; raw factors 0, 0, 1, 0, 0.5 with total 1.5. -/
def c6okcase : PWCase :=
  { keywords := none, context_similarity := none, citation_count := some 0,
    court_type := some ("Supreme Court"), precedent_setting := false,
    overturned_previous := false, widely_cited := false, current_relevance := false,
    date := none }

theorem c6okcase_weight_points :
    weight_points 2025 c6okcase = some ⟨0, 0, 2/3, 0, 1/3⟩ := by
  norm_num +decide [weight_points, raw_sum, calculate_temporal_weight,
    calculate_relevance_weight, calculate_citation_weight,
    calculate_hierarchy_weight, court_hierarchy_weights,
    calculate_outcome_impact, c6okcase, min_def]

/-- Witness for c6_amended at the concrete case c6okcase. -/
theorem c6_amended_witness :
    WeightVector.sum ⟨0, 0, 2/3, 0, 1/3⟩ = 1
      ∧ (0 ≤ (0:ℚ) ∧ 0 ≤ (0:ℚ) ∧ 0 ≤ (2/3:ℚ) ∧ 0 ≤ (0:ℚ) ∧ 0 ≤ (1/3:ℚ)) :=
  ⟨(c6_amended 2025 c6okcase ⟨0, 0, 2/3, 0, 1/3⟩ c6okcase_weight_points).1,
   (c6_amended 2025 c6okcase ⟨0, 0, 2/3, 0, 1/3⟩ c6okcase_weight_points).2
     (by norm_num [c6okcase]) (by norm_num [c6okcase])⟩

/-! ### CaseAnalysis relevance scoring (src/backend/analysis/case_analysis.py)

_calculate_relevance reads case_data["metadata"] (date, court) and
case_data.get("citations", []). -/

structure CACase where
  metadata_date : Option String
  metadata_court : Option String
  citations : Option (List String)

/-- The fixed precedent_weight table from CaseAnalysis.__init__. -/
def precedent_weight (court : String) : Option ℚ :=
  if court = "Supreme Court" then some 1.0
  else if court = "Circuit Court" then some 0.8
  else if court = "District Court" then some 0.6
  else none

/-- CaseAnalysis._extract_year: strptime the date, falling back to the current
year when it raises ValueError. -/
def extract_year (nowYear : ℤ) (s : String) : ℤ :=
  (parseYMD s).getD nowYear

/-- CaseAnalysis._calculate_time_weight. -/
def calculate_time_weight (nowYear y : ℤ) : ℚ :=
  max 0.1 (1 - ((nowYear - y : ℤ) : ℚ) * 0.05)

/-- The recency contribution to _calculate_relevance: 0 when the metadata has
no date key. -/
def ca_time_component (nowYear : ℤ) (c : CACase) : ℚ :=
  match c.metadata_date with
  | some d => calculate_time_weight nowYear (extract_year nowYear d)
  | none => 0

/-- The jurisdiction contribution to _calculate_relevance: table lookup with
default 0.4 for an unrecognized court, 0 when the metadata has no court
key. -/
def ca_court_component (c : CACase) : ℚ :=
  match c.metadata_court with
  | some ct => (precedent_weight ct).getD 0.4
  | none => 0

/-- The citation contribution to _calculate_relevance: 0.1 per citation,
capped at 1. -/
def ca_citation_component (c : CACase) : ℚ :=
  min (((c.citations.getD []).length : ℚ) * 0.1) 1

/-- CaseAnalysis._calculate_relevance: accumulate the three contributions and
normalize by min(total / 3, 1.0). -/
def calculate_relevance (nowYear : ℤ) (c : CACase) : ℚ :=
  min ((ca_time_component nowYear c + ca_court_component c
    + ca_citation_component c) / 3) 1

theorem ca_time_component_nonneg (nowYear : ℤ) (c : CACase) :
    0 ≤ ca_time_component nowYear c := by
  unfold ca_time_component
  cases c.metadata_date with
  | none => norm_num
  | some d =>
    refine le_trans (by norm_num) (le_max_left (0.1 : ℚ) _)

theorem ca_court_component_nonneg (c : CACase) : 0 ≤ ca_court_component c := by
  unfold ca_court_component
  cases c.metadata_court with
  | none => norm_num
  | some ct =>
    dsimp only
    unfold precedent_weight
    split_ifs <;> norm_num

theorem ca_citation_component_nonneg (c : CACase) : 0 ≤ ca_citation_component c := by
  unfold ca_citation_component
  exact le_min (by positivity) (by norm_num)

/-- Claim C8, confirmed: for every case record, _calculate_relevance returns
min of (time_weight + court_weight + citation_weight) / 3 and 1.0 — where
each weight contributes 0 when its metadata key is absent — and the result
always lies in [0, 1]. -/
theorem c8_relevance (nowYear : ℤ) (c : CACase) :
    calculate_relevance nowYear c
        = min ((ca_time_component nowYear c + ca_court_component c
            + ca_citation_component c) / 3) 1
      ∧ 0 ≤ calculate_relevance nowYear c
      ∧ calculate_relevance nowYear c ≤ 1 := by
  refine ⟨rfl, ?_, min_le_right _ _⟩
  have h1 := ca_time_component_nonneg nowYear c
  have h2 := ca_court_component_nonneg c
  have h3 := ca_citation_component_nonneg c
  exact le_min (by positivity) (by norm_num)

/-! ### StrategySuggestionEngine (src/backend/strategy/suggestion_engine.py) -/

inductive StrategyType
  | aggressive
  | defensive
  | balanced
  | precedent_focused
  | policy_based
deriving DecidableEq

structure Strategy where
  type : StrategyType
  description : String
  recommended_actions : List String
  priority : ℤ
  success_probability : ℚ

/-- The analysis_results dict consumed by StrategySuggestionEngine.suggest. -/
structure AnalysisResults where
  evidence_score : Option ℚ
  precedent_score : Option ℚ
  coherence_score : Option ℚ
  counter_argument_strength : Option ℚ
  opposing_evidence_strength : Option ℚ

/-- StrategySuggestionEngine._evaluate_case_strength: mean of three factors,
each defaulting to 0.5. -/
def evaluate_case_strength (a : AnalysisResults) : ℚ :=
  ((a.evidence_score.getD 0.5) + (a.precedent_score.getD 0.5)
    + (a.coherence_score.getD 0.5)) / 3

/-- StrategySuggestionEngine._evaluate_opposition_strength: mean of two
factors, each defaulting to 0.5. -/
def evaluate_opposition_strength (a : AnalysisResults) : ℚ :=
  ((a.counter_argument_strength.getD 0.5)
    + (a.opposing_evidence_strength.getD 0.5)) / 2

/-- StrategySuggestionEngine._generate_primary_strategy: threshold rules, all
three branches get priority 1.  Descriptions and actions are the fixed
strategy_templates entries. -/
def generate_primary_strategy (cs os : ℚ) : Strategy :=
  if cs > 0.7 ∧ os < 0.5 then
    { type := StrategyType.aggressive,
      description := ("Focus on strong offensive arguments and direct challenges"),
      recommended_actions := [("Challenge opposing evidence validity"),
        ("Present strongest arguments first"), ("Emphasize favorable precedents")],
      priority := 1, success_probability := cs }
  else if os > 0.7 then
    { type := StrategyType.defensive,
      description := ("Build strong defensive position and counter-arguments"),
      recommended_actions := [("Strengthen procedural compliance"),
        ("Prepare detailed counter-arguments"), ("Focus on evidence reliability")],
      priority := 1, success_probability := 1 - os }
  else
    { type := StrategyType.balanced,
      description := ("Maintain balanced approach"),
      recommended_actions := [("Alternate between offensive and defensive points"),
        ("Address key issues systematically"),
        ("Maintain credibility through balanced presentation")],
      priority := 1, success_probability := (cs + (1 - os)) / 2 }

/-- StrategySuggestionEngine._generate_supplementary_strategies: one
precedent-focused strategy of priority 2 when precedent_score (default 0)
exceeds 0.7. -/
def generate_supplementary_strategies (a : AnalysisResults) : List Strategy :=
  if a.precedent_score.getD 0 > 0.7 then
    [{ type := StrategyType.precedent_focused,
       description := ("Leverage strong precedential support"),
       recommended_actions := [("Focus on precedent application"),
         ("Distinguish opposing cases")],
       priority := 2, success_probability := a.precedent_score.getD 0 }]
  else []

/-- StrategySuggestionEngine.suggest: primary strategy first, then the
supplementary ones, then Python's sorted(key=priority, reverse=True), which
orders by numeric priority descending. -/
def suggest (a : AnalysisResults) : List Strategy :=
  sortDesc Strategy.priority
    (generate_primary_strategy (evaluate_case_strength a)
      (evaluate_opposition_strength a) :: generate_supplementary_strategies a)

theorem generate_primary_strategy_priority (cs os : ℚ) :
    (generate_primary_strategy cs os).priority = 1 := by
  unfold generate_primary_strategy
  split_ifs <;> rfl

/-- An analysis input with a strong precedent score: the primary strategy is
BALANCED (priority 1) and a PRECEDENT_FOCUSED supplementary strategy
(priority 2) is generated. -/
def c3input : AnalysisResults :=
  { evidence_score := none, precedent_score := some 0.8, coherence_score := none,
    counter_argument_strength := none, opposing_evidence_strength := none }

/-- Claim C3, counterexample: on c3input, suggest returns the priority-2
supplementary strategy first and the priority-1 primary strategy last,
because sorted(..., reverse=True) sorts the numeric priority values
descending and 2 > 1.  The primary strategy (the single strategy with
priority 1) is therefore not the first element, refuting the claim. -/
theorem c3_counterexample :
    (suggest c3input).map Strategy.priority = [2, 1]
      ∧ ((suggest c3input).map Strategy.type
          = [StrategyType.precedent_focused, StrategyType.balanced])
      ∧ (suggest c3input).head?.map Strategy.priority ≠ some 1 := by
  have hcs : evaluate_case_strength c3input = 0.6 := by
    norm_num [evaluate_case_strength, c3input]
  have hos : evaluate_opposition_strength c3input = 0.5 := by
    norm_num [evaluate_opposition_strength, c3input]
  have hp : generate_primary_strategy (evaluate_case_strength c3input)
      (evaluate_opposition_strength c3input)
        = generate_primary_strategy 0.6 0.5 := by rw [hcs, hos]
  have hb : generate_primary_strategy (0.6 : ℚ) 0.5
      = { type := StrategyType.balanced,
          description := ("Maintain balanced approach"),
          recommended_actions := [("Alternate between offensive and defensive points"),
            ("Address key issues systematically"),
            ("Maintain credibility through balanced presentation")],
          priority := 1, success_probability := 0.55 } := by
    norm_num [generate_primary_strategy]
  have hs : generate_supplementary_strategies c3input
      = [{ type := StrategyType.precedent_focused,
           description := ("Leverage strong precedential support"),
           recommended_actions := [("Focus on precedent application"),
             ("Distinguish opposing cases")],
           priority := 2, success_probability := 0.8 }] := by
    norm_num [generate_supplementary_strategies, c3input]
  unfold suggest
  rw [hp, hb, hs]
  norm_num [sortDesc, insertDesc]

/-- Claim C3, amended: suggest orders its output by numeric priority
descending, and the single priority-1 primary strategy is always the LAST
element; it is the first element exactly when no supplementary strategy is
generated, i.e. when the analysis precedent_score (default 0) is at most
0.7. -/
theorem c3_amended (a : AnalysisResults) :
    (suggest a).Pairwise (fun x y => y.priority ≤ x.priority)
      ∧ (suggest a).getLast?.map Strategy.priority = some 1
      ∧ ((suggest a).head?.map Strategy.priority = some 1
          ↔ ¬ a.precedent_score.getD 0 > 0.7) := by
  refine ⟨pairwise_sortDesc Strategy.priority _, ?_, ?_⟩ <;>
  · unfold suggest generate_supplementary_strategies
    by_cases hp : a.precedent_score.getD 0 > 0.7 <;>
      simp only [hp, if_pos, if_neg, not_true, not_false_iff, iff_true, iff_false] <;>
      simp [sortDesc, insertDesc, generate_primary_strategy_priority,
        List.getLast?, hp]

/-! ### DualPerspectiveAnalysis (src/backend/dual_perspective.py) -/

inductive ArgumentType
  | factual
  | legal
  | procedural
  | policy
deriving DecidableEq

structure Argument where
  text : String
  type : ArgumentType
  strength : ℚ
  supporting_citations : List String
  counter_arguments : List String

/-- ASCII lowering of a text, modelling str.lower() on the texts involved. -/
def lowerData (s : String) : List Char :=
  s.data.map Char.toLower

/-- Python's substring containment (term in hay). -/
def occursIn (term : List Char) : List Char → Bool
  | [] => term.isEmpty
  | c :: rest => term.isPrefixOf (c :: rest) || occursIn term rest

/-- The fixed opposing_pairs of _arguments_conflict. -/
def opposing_pairs : List (String × String) :=
  [(("supports"), ("opposes")), (("proves"), ("disproves")),
   (("confirms"), ("contradicts"))]

/-- The polarity scan of _arguments_conflict: some opposing pair occurs with
the positive term in one lowered text and the negative term in the other. -/
def has_opposing_pair (t1 t2 : String) : Bool :=
  opposing_pairs.any fun pn =>
    (occursIn pn.1.data (lowerData t1) && occursIn pn.2.data (lowerData t2))
      || (occursIn pn.2.data (lowerData t1) && occursIn pn.1.data (lowerData t2))

/-- DualPerspectiveAnalysis._arguments_conflict, parameterized by the spaCy
similarity capability; sim returning none models the external call raising,
which the method catches, returning False. -/
def arguments_conflict (sim : String → String → Option ℚ) (a1 a2 : Argument) : Bool :=
  if a1.type ≠ a2.type then false
  else
    match sim a1.text a2.text with
    | none => false
    | some s => if s > 0.7 then has_opposing_pair a1.text a2.text else false

/-- DualPerspectiveAnalysis._analyze_argument_conflicts: append to the new
argument's counter_arguments the text of every conflicting argument of the
opposing track, in track order. -/
def analyze_argument_conflicts (sim : String → String → Option ℚ)
    (opposing : List Argument) (a : Argument) : Argument :=
  { a with counter_arguments := a.counter_arguments
      ++ (opposing.filter fun o => arguments_conflict sim a o).map Argument.text }

/-- The mutable track state of a DualPerspectiveAnalysis instance. -/
structure DPState where
  prosecution_track : List Argument
  defense_track : List Argument

/-- DualPerspectiveAnalysis.add_prosecution_argument: append the argument to
the prosecution track, then populate its counter_arguments from the defense
track. -/
def add_prosecution_argument (sim : String → String → Option ℚ)
    (st : DPState) (a : Argument) : DPState :=
  { st with prosecution_track := st.prosecution_track
      ++ [analyze_argument_conflicts sim st.defense_track a] }

/-- DualPerspectiveAnalysis.add_defense_argument: append the argument to the
defense track, then populate its counter_arguments from the prosecution
track. -/
def add_defense_argument (sim : String → String → Option ℚ)
    (st : DPState) (a : Argument) : DPState :=
  { st with defense_track := st.defense_track
      ++ [analyze_argument_conflicts sim st.prosecution_track a] }

/-- Claim C7, confirmed: given that the similarity capability returns a value
s on the two texts, _arguments_conflict returns True exactly when the type
tags are equal, s exceeds 0.7, and one text contains the positive and the
other the negative term of one of the three fixed opposing pairs.  In
particular arguments of different types, or with similarity at most 0.7,
never conflict. -/
theorem c7_conflict_iff (sim : String → String → Option ℚ) (a1 a2 : Argument)
    (s : ℚ) (hsim : sim a1.text a2.text = some s) :
    arguments_conflict sim a1 a2 = true
      ↔ (a1.type = a2.type ∧ 0.7 < s ∧ has_opposing_pair a1.text a2.text = true) := by
  unfold arguments_conflict
  rw [hsim]
  by_cases ht : a1.type = a2.type
  · rw [if_neg (by simp [ht])]
    dsimp only
    by_cases hs : s > 0.7
    · rw [if_pos hs]
      simp [ht, hs]
    · rw [if_neg hs]
      simp [ht, hs]
  · rw [if_pos (by simp [ht])]
    simp [ht]

/-- A deterministic similarity stub returning 0.8 for every pair. -/
def simConst : String → String → Option ℚ := fun x y => some 0.8

def c7arg1 : Argument :=
  { text := ("The forensic report supports the timeline"), type := ArgumentType.factual,
    strength := 0.6, supporting_citations := [], counter_arguments := [] }

def c7arg2 : Argument :=
  { text := ("The forensic report opposes the timeline"), type := ArgumentType.factual,
    strength := 0.5, supporting_citations := [], counter_arguments := [] }

/-- Witness for c7_conflict_iff at a concrete pair of conflicting
arguments. -/
theorem c7_conflict_iff_witness :
    simConst c7arg1.text c7arg2.text = some 0.8
      ∧ (arguments_conflict simConst c7arg1 c7arg2 = true
          ↔ (c7arg1.type = c7arg2.type ∧ (0.7:ℚ) < 0.8
              ∧ has_opposing_pair c7arg1.text c7arg2.text = true)) :=
  ⟨rfl, c7_conflict_iff simConst c7arg1 c7arg2 0.8 rfl⟩

/-- Claim C9, confirmed: registering a new argument on either track leaves
the other track untouched and the registering track equal to its old value
plus one appended element; that appended element agrees with the input
argument on text, type, strength and supporting citations, and its
counter_arguments extend the input's.  Hence no previously added argument of
either track is ever modified, for every state reachable by any sequence of
additions. -/
theorem c9_frame (sim : String → String → Option ℚ) (st : DPState) (a : Argument) :
    (∃ a2, (add_prosecution_argument sim st a).prosecution_track
          = st.prosecution_track ++ [a2]
        ∧ (add_prosecution_argument sim st a).defense_track = st.defense_track
        ∧ a2.text = a.text ∧ a2.type = a.type ∧ a2.strength = a.strength
        ∧ a2.supporting_citations = a.supporting_citations
        ∧ a.counter_arguments <+: a2.counter_arguments)
      ∧ (∃ a2, (add_defense_argument sim st a).defense_track
          = st.defense_track ++ [a2]
        ∧ (add_defense_argument sim st a).prosecution_track = st.prosecution_track
        ∧ a2.text = a.text ∧ a2.type = a.type ∧ a2.strength = a.strength
        ∧ a2.supporting_citations = a.supporting_citations
        ∧ a.counter_arguments <+: a2.counter_arguments) :=
  ⟨⟨analyze_argument_conflicts sim st.defense_track a,
    rfl, rfl, rfl, rfl, rfl, rfl, List.prefix_append _ _⟩,
   ⟨analyze_argument_conflicts sim st.prosecution_track a,
    rfl, rfl, rfl, rfl, rfl, rfl, List.prefix_append _ _⟩⟩

/-! ### WeaknessAnalysis (src/backend/weakness/analysis.py) and
DataValidator.validate_argument (src/utils/validators.py) -/

structure Precedent where
  distinguishable : Bool

/-- An argument dict as consumed by WeaknessAnalysis.analyze; required keys
may be absent. -/
structure PyArgument where
  text : Option String
  type : Option String
  evidence : Option (List String)
  evidence_quality : Option ℚ
  precedents : Option (List Precedent)

/-- DataValidator.validate_argument: the first missing key among text, type,
evidence produces an error message; none means valid. -/
def validate_argument (a : PyArgument) : Option String :=
  if a.text.isNone then some ("Missing required field: text")
  else if a.type.isNone then some ("Missing required field: type")
  else if a.evidence.isNone then some ("Missing required field: evidence")
  else none

structure Weakness where
  description : String
  severity : ℚ
  type : String
  potential_remedies : List String

/-- The evidence-gap Weakness built in _analyze_evidence. -/
def evidence_gap_weakness : Weakness :=
  { description := ("Lack of supporting evidence"), severity := 0.8,
    type := ("evidence_gap"),
    potential_remedies := [("Gather additional documentary evidence"),
      ("Identify potential witnesses"), ("Consider expert testimony")] }

/-- The evidence-quality Weakness built in _analyze_evidence. -/
def evidence_quality_weakness : Weakness :=
  { description := ("Low quality or unreliable evidence"), severity := 0.7,
    type := ("evidence_quality"),
    potential_remedies := [("Strengthen chain of custody"),
      ("Obtain corroborating evidence"), ("Address authentication issues")] }

/-- The distinguishable-precedent Weakness built in _analyze_precedents. -/
def precedent_weakness_item : Weakness :=
  { description := ("Distinguishable precedent"), severity := 0.5,
    type := ("precedent_weakness"),
    potential_remedies := [("Find more analogous cases"),
      ("Address distinguishing factors"), ("Emphasize policy considerations")] }

/-- WeaknessAnalysis._analyze_evidence: an absent or empty evidence list
yields the gap weakness; an evidence_quality value below 0.6 additionally
yields the quality weakness. -/
def analyze_evidence (a : PyArgument) : List Weakness :=
  (match a.evidence with
   | none => [evidence_gap_weakness]
   | some l => if l.isEmpty then [evidence_gap_weakness] else [])
  ++ (match a.evidence_quality with
      | some q => if q < 0.6 then [evidence_quality_weakness] else []
      | none => [])

/-- The flat logical_flaws marker list of WeaknessAnalysis.weakness_patterns. -/
def logical_flaw_markers : List String :=
  [("circular reasoning"), ("false equivalence"), ("hasty generalization")]

/-- WeaknessAnalysis._analyze_logic, parameterized by the spaCy sentence
segmenter.  The source iterates weakness_patterns["logical_flaws"] — the flat
marker list above — as if its items were (fallacy_type, pattern-list) pairs:
for every sentence, the inner loop's first iteration tries to unpack the
18-character string "circular reasoning" into two variables and raises
ValueError (too many values to unpack).  The method therefore returns [] when
the text segments into no sentences and raises (Except.error) otherwise; the
Weakness construction in the loop body is unreachable. -/
def analyze_logic (sents : String → List String) (a : PyArgument) :
    Except Unit (List Weakness) :=
  match sents (a.text.getD ("")) with
  | [] => Except.ok []
  | _ :: _ => Except.error ()

/-- WeaknessAnalysis._analyze_precedents: one weakness per precedent marked
distinguishable. -/
def analyze_precedents (a : PyArgument) : List Weakness :=
  match a.precedents with
  | none => []
  | some ps => (ps.filter Precedent.distinguishable).map fun _ => precedent_weakness_item

/-- The argument loop of WeaknessAnalysis.analyze: skip invalid arguments,
otherwise accumulate evidence, logic and precedent weaknesses in order; an
exception anywhere aborts the whole loop. -/
def collect_weaknesses (sents : String → List String) :
    List PyArgument → Except Unit (List Weakness)
  | [] => Except.ok []
  | a :: rest =>
    match validate_argument a with
    | some _ => collect_weaknesses sents rest
    | none => do
      let lw ← analyze_logic sents a
      let ws ← collect_weaknesses sents rest
      Except.ok (analyze_evidence a ++ lw ++ analyze_precedents a ++ ws)

/-- WeaknessAnalysis._prioritize_weaknesses: stable sort by severity
descending. -/
def prioritize_weaknesses (ws : List Weakness) : List Weakness :=
  sortDesc Weakness.severity ws

/-- WeaknessAnalysis.analyze: run the argument loop inside try/except; any
exception is caught and the method returns [], discarding everything
collected so far. -/
def analyze (sents : String → List String) (args : List PyArgument) : List Weakness :=
  match collect_weaknesses sents args with
  | Except.ok ws => prioritize_weaknesses ws
  | Except.error _ => []

/-- A sentence segmenter stub: nonempty text is a single sentence, as spaCy
produces on a short sentence-like text. -/
def sentsWhole (s : String) : List String :=
  if s.data.isEmpty then [] else [s]

theorem collect_weaknesses_error (sents : String → List String) (args : List PyArgument)
    (h : ∃ a ∈ args, validate_argument a = none ∧ sents (a.text.getD ("")) ≠ []) :
    collect_weaknesses sents args = Except.error () := by
  induction args with
  | nil => obtain ⟨a, ha, _⟩ := h; cases ha
  | cons b rest ih =>
    obtain ⟨a, ha, hv, hs⟩ := h
    rcases List.mem_cons.1 ha with rfl | hmem
    · unfold collect_weaknesses
      rw [hv]
      dsimp only
      unfold analyze_logic
      cases hss : sents (a.text.getD ("")) with
      | nil => exact absurd hss hs
      | cons x xs => rfl
    · unfold collect_weaknesses
      cases hvb : validate_argument b with
      | some e =>
        dsimp only
        exact ih ⟨a, hmem, hv, hs⟩
      | none =>
        dsimp only
        have hrest := ih ⟨a, hmem, hv, hs⟩
        cases hl : analyze_logic sents b with
        | error u => cases u; rfl
        | ok lw =>
          simp only [hrest]
          rfl

theorem collect_weaknesses_ok_mem (sents : String → List String) (args : List PyArgument)
    (hq : ∀ b ∈ args, validate_argument b = none → sents (b.text.getD ("")) = []) :
    ∃ ws, collect_weaknesses sents args = Except.ok ws
      ∧ ∀ a ∈ args, validate_argument a = none → a.evidence = some [] →
          evidence_gap_weakness ∈ ws := by
  induction args with
  | nil => exact ⟨[], rfl, by simp⟩
  | cons b rest ih =>
    have hqr : ∀ x ∈ rest, validate_argument x = none → sents (x.text.getD ("")) = [] :=
      fun x hx => hq x (List.mem_cons_of_mem b hx)
    obtain ⟨ws, hws, hmem⟩ := ih hqr
    cases hvb : validate_argument b with
    | some e =>
      refine ⟨ws, ?_, ?_⟩
      · simp only [collect_weaknesses, hvb]
        exact hws
      · intro a ha hv he
        rcases List.mem_cons.1 ha with rfl | hmem2
        · rw [hvb] at hv; cases hv
        · exact hmem a hmem2 hv he
    | none =>
      have hsb : sents (b.text.getD ("")) = [] := hq b (List.mem_cons_self b rest) hvb
      have hl : analyze_logic sents b = Except.ok [] := by
        unfold analyze_logic
        rw [hsb]
      refine ⟨analyze_evidence b ++ [] ++ analyze_precedents b ++ ws, ?_, ?_⟩
      · simp only [collect_weaknesses, hvb, hl, hws]
        rfl
      · intro a ha hv he
        rcases List.mem_cons.1 ha with rfl | hmem2
        · have hgap : evidence_gap_weakness ∈ analyze_evidence a := by
            unfold analyze_evidence
            rw [he]
            simp
          simp [List.mem_append, hgap]
        · have := hmem a hmem2 hv he
          simp [List.mem_append, this]

/-- The argument of the C1 failing input: a valid argument whose single
sentence contains a logical-fallacy marker phrase. -/
def c1arg : PyArgument :=
  { text := some ("This is circular reasoning."), type := some ("legal"),
    evidence := some [("exhibit A")], evidence_quality := none, precedents := none }

/-- Claim C1 (code bug): on a valid argument whose sentence contains the
fallacy marker "circular reasoning", the intended behavior — one
logical_flaw Weakness of severity 0.6 — never happens: _analyze_logic raises
ValueError unpacking the flat marker list (collect_weaknesses errors), and
analyze catches it and returns the empty list.  The spec's open question
marks this iteration as an unreduced defect, and test_analyze_logic would
raise on any sentence-bearing text. -/
theorem c1_code_behavior :
    occursIn ("circular reasoning").data (lowerData (c1arg.text.getD (""))) = true
      ∧ collect_weaknesses sentsWhole [c1arg] = Except.error ()
      ∧ analyze sentsWhole [c1arg] = [] :=
  ⟨by decide, rfl, rfl⟩

/-- The argument of the C2 counterexample: its evidence key is entirely
missing, so DataValidator.validate_argument rejects it and analyze skips it
without emitting any Weakness. -/
def c2arg : PyArgument :=
  { text := some ("The defendant acted negligently."), type := some ("factual"),
    evidence := none, evidence_quality := none, precedents := none }

/-- Claim C2, counterexample: an argument whose evidence field is missing is
skipped by validation, so analyze returns no Weakness at all for it — in
particular no evidence_gap Weakness, refuting the claim. -/
theorem c2_counterexample :
    validate_argument c2arg = some ("Missing required field: evidence")
      ∧ analyze sentsWhole [c2arg] = []
      ∧ evidence_gap_weakness ∉ analyze sentsWhole [c2arg] := by
  refine ⟨rfl, rfl, ?_⟩
  intro hmem
  rw [show analyze sentsWhole [c2arg] = [] from rfl] at hmem
  cases hmem

/-- Claim C2, amended: an argument whose evidence field is PRESENT BUT EMPTY
(and which passes validation) always contributes a Weakness of type
evidence_gap with severity 0.8 to the result of analyze — provided the
analysis completes, i.e. no valid argument's text segments into a sentence
(which would trigger the _analyze_logic crash of C1 and empty the result).
An argument with the evidence field missing entirely is instead skipped by
validation and yields nothing. -/
theorem c2_amended (sents : String → List String) (args : List PyArgument)
    (a : PyArgument) (ha : a ∈ args) (hv : validate_argument a = none)
    (he : a.evidence = some [])
    (hq : ∀ b ∈ args, validate_argument b = none → sents (b.text.getD ("")) = []) :
    evidence_gap_weakness ∈ analyze sents args := by
  obtain ⟨ws, hws, hmem⟩ := collect_weaknesses_ok_mem sents args hq
  unfold analyze
  rw [hws]
  dsimp only
  unfold prioritize_weaknesses
  exact (mem_sortDesc Weakness.severity _ _).2 (hmem a ha hv he)

/-- The argument of the c2_amended witness: empty text (no sentences), empty
evidence list. -/
def c2warg : PyArgument :=
  { text := some (""), type := some ("factual"), evidence := some [],
    evidence_quality := none, precedents := none }

/-- Witness for c2_amended at the concrete singleton list [c2warg]. -/
theorem c2_amended_witness : evidence_gap_weakness ∈ analyze sentsWhole [c2warg] :=
  c2_amended sentsWhole [c2warg] c2warg (List.mem_singleton.2 rfl) rfl rfl
    (by
      intro b hb hvb
      obtain rfl := List.mem_singleton.1 hb
      rfl)

/-- Claim C10, confirmed: analyze's try/except catches any exception raised
during the per-argument checks and returns the empty list, discarding every
weakness already collected for earlier arguments.  The only raising site in
the loop is the _analyze_logic defect, which fires for a valid argument whose
text segments into at least one sentence. -/
theorem c10_analyze_catches (sents : String → List String) (args : List PyArgument)
    (h : ∃ a ∈ args, validate_argument a = none ∧ sents (a.text.getD ("")) ≠ []) :
    analyze sents args = [] := by
  unfold analyze
  rw [collect_weaknesses_error sents args h]

/-- The argument of the c10 witness: valid, with a sentence-bearing text. -/
def c10arg : PyArgument :=
  { text := some ("The contract proves liability."), type := some ("legal"),
    evidence := some [("signed agreement")], evidence_quality := none,
    precedents := none }

/-- Witness for c10_analyze_catches at the concrete list [c2warg, c10arg]:
the first argument would contribute an evidence-gap weakness, but the
exception on the second discards it and analyze returns []. -/
theorem c10_analyze_catches_witness :
    (∃ a ∈ [c2warg, c10arg], validate_argument a = none
        ∧ sentsWhole (a.text.getD ("")) ≠ [])
      ∧ analyze sentsWhole [c2warg, c10arg] = [] := by
  have hex : ∃ a ∈ [c2warg, c10arg], validate_argument a = none
      ∧ sentsWhole (a.text.getD ("")) ≠ [] :=
    ⟨c10arg, by simp, rfl, by decide⟩
  exact ⟨hex, c10_analyze_catches sentsWhole [c2warg, c10arg] hex⟩
